import Mathlib

/-!
# Verification of the StayKo property filtering and favorites logic

Shallow embedding of the client-side filter engine
(`filterProperties` in `src/app/screens/HomeScreen.tsx`), the favorites
toggling logic (`toggleFavorite` in the same file), and the repository
client read operations (`src/app/lib/favorites.ts`,
`src/app/lib/properties.ts`).

JavaScript strings are modelled by Lean `String`.  The JS numbers that
occur in price filtering are modelled exactly: `parseFloat` results are
NaN, ±Infinity, or a decimal fraction `num / 10 ^ exp` (`Dec` below),
and comparisons are performed by integer cross-multiplication, which
agrees with the rational ordering because the denominators `10 ^ exp`
are positive.  No claim in scope depends on binary double rounding.
-/

namespace StayKo

/-- An exact decimal fraction `num / 10 ^ exp`.  Used for property
prices and for finite `parseFloat` results. -/
structure Dec where
  num : ℤ
  exp : ℕ
deriving DecidableEq

/-- The rational value denoted by a `Dec`. -/
def Dec.val (d : Dec) : ℚ := (d.num : ℚ) / (10 : ℚ) ^ d.exp

/-- A JS number as produced by `parseFloat`: NaN, ±Infinity, or a
finite decimal value. -/
inductive JSNum where
  | nan : JSNum
  | posInf : JSNum
  | negInf : JSNum
  | finite : Dec → JSNum
deriving DecidableEq

/-- Accumulate a run of leading decimal digits of a character list,
returning the value read so far, the number of digits consumed, and the
rest of the list.  Models the `DecimalDigits` production used by JS
`parseFloat`. -/
def readDigits (acc : ℕ) (n : ℕ) : List Char → ℕ × ℕ × List Char
  | [] => (acc, n, [])
  | c :: cs =>
    if c.isDigit then readDigits (10 * acc + (c.toNat - 48)) (n + 1) cs
    else (acc, n, c :: cs)

/-- Read an optional exponent part (`e`/`E`, optional sign, digits) at
the head of the list; an `e` not followed by at least one digit is not
part of the literal, so it contributes exponent 0 (longest valid
prefix rule of `parseFloat`). -/
def readExponent : List Char → ℤ
  | c :: cs =>
    if c = 'e' ∨ c = 'E' then
      let (neg, ds) :=
        match cs with
        | '-' :: ds => (true, ds)
        | '+' :: ds => (false, ds)
        | ds => (false, ds)
      let (ev, ec, _) := readDigits 0 0 ds
      if ec = 0 then 0 else if neg then -(ev : ℤ) else (ev : ℤ)
    else 0
  | [] => 0

/-- JS `parseFloat` on a character list after leading whitespace has
been removed and the optional sign split off: either the literal
`Infinity`, or a decimal literal `digits [. digits] [exp]` /
`. digits [exp]`; anything else is NaN. -/
def parseFloatBody (sign : Bool) (l : List Char) : JSNum :=
  if "Infinity".toList.isPrefixOf l then
    if sign then JSNum.negInf else JSNum.posInf
  else
    let (iv, ic, r1) := readDigits 0 0 l
    let (fv, fc, r2) :=
      match r1 with
      | '.' :: cs => readDigits 0 0 cs
      | _ => (0, 0, r1)
    if ic = 0 ∧ fc = 0 then JSNum.nan
    else
      let mag : ℤ := (iv : ℤ) * 10 ^ fc + (fv : ℤ)
      let n : ℤ := if sign then -mag else mag
      match readExponent r2 with
      | Int.ofNat k => JSNum.finite ⟨n * 10 ^ k, fc⟩
      | Int.negSucc k => JSNum.finite ⟨n, fc + (k + 1)⟩

/-- JS `parseFloat`: skip leading whitespace, read an optional sign,
then the longest valid `StrDecimalLiteral` prefix; no valid prefix
gives NaN. -/
def parseFloat (s : String) : JSNum :=
  let l := (s.toList).dropWhile Char.isWhitespace
  match l with
  | '-' :: cs => parseFloatBody true cs
  | '+' :: cs => parseFloatBody false cs
  | _ => parseFloatBody false l

/-- JS `String.prototype.trim`: strip whitespace from both ends.
(Defined structurally on the character list so that concrete instances
reduce; Lean's built-in `String.trim` is not kernel-reducible.) -/
def jsTrim (s : String) : String :=
  String.mk
    (((s.data.dropWhile Char.isWhitespace).reverse.dropWhile
        Char.isWhitespace).reverse)

/-- JS `String.prototype.toLowerCase`, restricted to the ASCII simple
mapping (`Char.toLower` per character). -/
def jsToLower (s : String) : String := String.mk (s.data.map Char.toLower)

/-- `needle` occurs contiguously inside `hay`. -/
def listIncludes (needle : List Char) : List Char → Bool
  | [] => needle.isEmpty
  | c :: cs => needle.isPrefixOf (c :: cs) || listIncludes needle cs

/-- JS `a.includes(b)` on strings: `b` is a contiguous substring of
`a`. -/
def jsIncludes (a b : String) : Bool :=
  listIncludes b.toList a.toList

/-- JS `p >= m` where `p` is a finite number and `m` is non-NaN
(`filterProperties` only compares after an `isNaN` check).  Finite
values are compared by cross-multiplication with the positive
denominators `10 ^ exp`. -/
def jsGe (p : Dec) (m : JSNum) : Bool :=
  match m with
  | JSNum.nan => false
  | JSNum.posInf => false
  | JSNum.negInf => true
  | JSNum.finite q => decide (q.num * (10 : ℤ) ^ p.exp ≤ p.num * (10 : ℤ) ^ q.exp)

/-- JS `p <= m` where `p` is a finite number and `m` is non-NaN. -/
def jsLe (p : Dec) (m : JSNum) : Bool :=
  match m with
  | JSNum.nan => false
  | JSNum.posInf => true
  | JSNum.negInf => false
  | JSNum.finite q => decide (p.num * (10 : ℤ) ^ q.exp ≤ q.num * (10 : ℤ) ^ p.exp)

/-- The cross-multiplied comparison in `jsGe` agrees with the rational
ordering of the denoted values. -/
theorem jsGe_val (p q : Dec) :
    jsGe p (JSNum.finite q) = decide (q.val ≤ p.val) := by
  have h10 : (0 : ℚ) < (10 : ℚ) ^ q.exp := by positivity
  have h10' : (0 : ℚ) < (10 : ℚ) ^ p.exp := by positivity
  simp only [jsGe, Dec.val, decide_eq_decide, div_le_div_iff₀ h10 h10']
  rw [show ((q.num : ℚ) * (10 : ℚ) ^ p.exp ≤ (p.num : ℚ) * (10 : ℚ) ^ q.exp) ↔
      ((q.num * (10 : ℤ) ^ p.exp : ℤ) : ℚ) ≤ ((p.num * (10 : ℤ) ^ q.exp : ℤ) : ℚ) by push_cast; rfl]
  exact_mod_cast Iff.rfl

/-- The cross-multiplied comparison in `jsLe` agrees with the rational
ordering of the denoted values. -/
theorem jsLe_val (p q : Dec) :
    jsLe p (JSNum.finite q) = decide (p.val ≤ q.val) := by
  have h10 : (0 : ℚ) < (10 : ℚ) ^ q.exp := by positivity
  have h10' : (0 : ℚ) < (10 : ℚ) ^ p.exp := by positivity
  simp only [jsLe, Dec.val, decide_eq_decide, div_le_div_iff₀ h10' h10]
  rw [show ((p.num : ℚ) * (10 : ℚ) ^ q.exp ≤ (q.num : ℚ) * (10 : ℚ) ^ p.exp) ↔
      ((p.num * (10 : ℤ) ^ q.exp : ℤ) : ℚ) ≤ ((q.num * (10 : ℤ) ^ p.exp : ℤ) : ℚ) by push_cast; rfl]
  exact_mod_cast Iff.rfl

/-- The `Property` record of `src/app/lib/properties.ts`, restricted to
the fields the filter engine and favorites logic read.  `type` is kept
as a string because the screens compare it against a string-typed
filter state (`property.type === selectedType`). -/
structure Property where
  id : String
  user_id : String
  type : String
  title : String
  description : Option String
  price : Dec
  location : Option String
deriving DecidableEq

/-- The filter state of `HomeScreen`: `searchQuery`, `selectedType`,
`minPrice`, `maxPrice` — all strings, as in the React state. -/
structure FilterState where
  searchQuery : String
  selectedType : String
  minPrice : String
  maxPrice : String
deriving DecidableEq

/-- The search predicate inside `filterProperties`:
`property.title.toLowerCase().includes(searchQuery.toLowerCase()) ||
 property.description?.toLowerCase().includes(...) ||
 property.location?.toLowerCase().includes(...)`.
Optional chaining on an absent field yields `undefined`, which is
falsy, so an absent field simply fails to match. -/
def matchesSearch (searchQuery : String) (p : Property) : Bool :=
  jsIncludes (jsToLower p.title) (jsToLower searchQuery) ||
  (match p.description with
   | some d => jsIncludes (jsToLower d) (jsToLower searchQuery)
   | none => false) ||
  (match p.location with
   | some l => jsIncludes (jsToLower l) (jsToLower searchQuery)
   | none => false)

/-- First reassignment of `filtered` in `filterProperties`: the search
stage, guarded by `if (searchQuery.trim())` (truthy iff the trimmed
query is non-empty) but matching with the untrimmed `searchQuery`. -/
def stageSearch (searchQuery : String) (l : List Property) : List Property :=
  if jsTrim searchQuery ≠ "" then l.filter (matchesSearch searchQuery) else l

/-- Second reassignment of `filtered`: the type stage, guarded by
`selectedType !== 'all'`. -/
def stageType (selectedType : String) (l : List Property) : List Property :=
  if selectedType ≠ "all" then l.filter (fun p => p.type == selectedType) else l

/-- Third reassignment of `filtered`: the min-price stage, guarded by
string truthiness of `minPrice` (non-empty) and `!isNaN(parseFloat
(minPrice))`. -/
def stageMin (minPrice : String) (l : List Property) : List Property :=
  if minPrice ≠ "" then
    match parseFloat minPrice with
    | JSNum.nan => l
    | m => l.filter (fun p => jsGe p.price m)
  else l

/-- Fourth reassignment of `filtered`: the max-price stage, guarded by
string truthiness of `maxPrice` and `!isNaN(parseFloat(maxPrice))`. -/
def stageMax (maxPrice : String) (l : List Property) : List Property :=
  if maxPrice ≠ "" then
    match parseFloat maxPrice with
    | JSNum.nan => l
    | m => l.filter (fun p => jsLe p.price m)
  else l

/-- `filterProperties` from `src/app/screens/HomeScreen.tsx`
(lines 95–128): the conjunctive chain of the four stages, in the order
the source applies them. -/
def filterProperties (properties : List Property) (s : FilterState) :
    List Property :=
  stageMax s.maxPrice (stageMin s.minPrice
    (stageType s.selectedType (stageSearch s.searchQuery properties)))

/-- Outcome of the awaited remote call inside `toggleFavorite`: the
call returned with no error, the call returned a truthy `error`
object, or the call threw (caught by the surrounding `try`/`catch`). -/
inductive RemoteOutcome where
  | ok : RemoteOutcome
  | err : RemoteOutcome
  | thrown : RemoteOutcome
deriving DecidableEq

/-- `toggleFavorite` from `src/app/screens/HomeScreen.tsx`
(lines 146–170), acting on the `favoritePropertyIds` state.  If the id
is currently present a remove request is issued, and only when it
returns without error is the id filtered out of the local list
(`prev.filter(id => id !== propertyId)`); symmetrically an add appends
the id (`[...prev, propertyId]`) only on success.  An error return or a
thrown exception leaves the list untouched (the handler only logs). -/
def toggleFavorite (favs : List String) (propertyId : String)
    (outcome : RemoteOutcome) : List String :=
  match outcome with
  | RemoteOutcome.thrown => favs
  | RemoteOutcome.err => favs
  | RemoteOutcome.ok =>
    if favs.contains propertyId then
      favs.filter (fun i => i != propertyId)
    else
      favs ++ [propertyId]

/-- A response from the external store as destructured by the
services: a nullable `data` payload and an `error` field whose JS
truthiness is modelled by a `Bool`. -/
structure QueryResp (α : Type) where
  data : Option α
  error : Bool

/-- A row of `user_favorites` as selected by
`favoritesService.getUserFavorites` (`select('property_id')`). -/
structure FavRow where
  property_id : String
deriving DecidableEq

/-- A row of the `getUserFavoriteProperties` join: the favorite's
`property_id` together with the joined `properties` record, which is
null when the referenced property no longer exists. -/
structure FavJoinRow where
  property_id : String
  properties : Option Property
deriving DecidableEq

/-- A row of the `isPropertyFavorited` query (`select('id')`). -/
structure IdRow where
  id : String
deriving DecidableEq

/-- `favoritesService.getUserFavorites` from `src/app/lib/favorites.ts`
(lines 47–64): no authenticated user returns `[]`; a store error is
logged and returns `[]`; otherwise
`data?.map(fav => fav.property_id) || []`. -/
def getUserFavorites (user : Option String)
    (resp : QueryResp (List FavRow)) : List String :=
  match user with
  | none => []
  | some _ =>
    if resp.error then []
    else
      match resp.data with
      | some rows => rows.map (fun r => r.property_id)
      | none => []

/-- `favoritesService.getUserFavoriteProperties` from
`src/app/lib/favorites.ts` (lines 67–104): no authenticated user
returns `[]`; a store error is logged and returns `[]`; otherwise
`data?.map(fav => fav.properties).filter(Boolean) || []` — the joined
records, with null joins (dangling favorites) filtered out. -/
def getUserFavoriteProperties (user : Option String)
    (resp : QueryResp (List FavJoinRow)) : List Property :=
  match user with
  | none => []
  | some _ =>
    if resp.error then []
    else
      match resp.data with
      | some rows => (rows.map (fun r => r.properties)).filterMap id
      | none => []

/-- `favoritesService.isPropertyFavorited` from
`src/app/lib/favorites.ts` (lines 107–125): no authenticated user
returns `false`; an error from the `.single()` query (including the
zero-row case) returns `false`; otherwise `!!data`. -/
def isPropertyFavorited (user : Option String)
    (resp : QueryResp IdRow) : Bool :=
  match user with
  | none => false
  | some _ =>
    if resp.error then false
    else resp.data.isSome

/-- The `PropertyPhoto` record of `src/app/lib/properties.ts`. -/
structure PropertyPhoto where
  id : String
  property_id : String
  photo_url : String
deriving DecidableEq

/-- `propertiesService.getAllProperties` from
`src/app/lib/properties.ts` (lines 44–61): a store error is logged and
re-thrown (`throw error`, re-thrown again by the outer catch), modelled
as `Except.error`; otherwise `data || []`. -/
def getAllProperties (resp : QueryResp (List Property)) :
    Except Unit (List Property) :=
  if resp.error then Except.error ()
  else Except.ok (resp.data.getD [])

/-- `propertyPhotosService.getPropertyPhotos` from
`src/app/lib/properties.ts` (lines 212–230): a store error is logged
and re-thrown, modelled as `Except.error`; otherwise `data || []`. -/
def getPropertyPhotos (resp : QueryResp (List PropertyPhoto)) :
    Except Unit (List PropertyPhoto) :=
  if resp.error then Except.error ()
  else Except.ok (resp.data.getD [])

/-- The confirmed-remove branch of `toggleFavorite` in
`src/app/screens/SearchScreen.tsx` (lines 80–119), acting on the
`favoriteProperties` state: after the user confirms, a remove request
is issued and only when it returns without error is the property
filtered out of the local list; an error return or a thrown exception
leaves the list untouched (the handler only alerts). -/
def searchToggleFavorite (favProps : List Property) (propertyId : String)
    (outcome : RemoteOutcome) : List Property :=
  match outcome with
  | RemoteOutcome.thrown => favProps
  | RemoteOutcome.err => favProps
  | RemoteOutcome.ok => favProps.filter (fun p => p.id != propertyId)

/-- Modelled from the spec: "the query (case-insensitive) is a
substring of" a field — `q` occurs contiguously inside `s` after both
are lower-cased. -/
def specCISubstring (q s : String) : Prop :=
  ∃ pre post, (jsToLower s).toList = pre ++ (jsToLower q).toList ++ post

/-- Modelled from the spec: "keep properties where the query
(case-insensitive) is a substring of `title`, OR of `description` (if
present), OR of `location` (if present)". -/
def specSearchMatch (q : String) (p : Property) : Prop :=
  specCISubstring q p.title ∨
  (∃ d, p.description = some d ∧ specCISubstring q d) ∨
  (∃ l, p.location = some l ∧ specCISubstring q l)

/-- Concrete sample property used in witnesses and counterexamples. -/
def condo : Property :=
  ⟨"1", "u", "rent", "Sunset Condo", none, ⟨15000, 0⟩, some "Cebu"⟩

/-- Concrete sample property used in witnesses and counterexamples. -/
def villa : Property :=
  ⟨"2", "u", "sale", "Ocean Villa", none, ⟨5000000, 0⟩, some "Cebu"⟩

/-! ## Supporting lemmas -/

theorem listIncludes_iff (n : List Char) (h : List Char) :
    listIncludes n h = true ↔ ∃ s t, h = s ++ n ++ t := by
  induction h with
  | nil =>
    simp only [listIncludes, List.isEmpty_iff]
    constructor
    · rintro rfl
      exact ⟨[], [], rfl⟩
    · rintro ⟨s, t, hst⟩
      have := hst.symm
      simp only [List.append_eq_nil] at this
      exact this.1.2
  | cons c cs ih =>
    simp only [listIncludes, Bool.or_eq_true, ih]
    constructor
    · rintro (hp | ⟨s, t, rfl⟩)
      · rcases List.isPrefixOf_iff_prefix.mp hp with ⟨t, ht⟩
        exact ⟨[], t, by simp [← ht]⟩
      · exact ⟨c :: s, t, by simp⟩
    · rintro ⟨s, t, hst⟩
      cases s with
      | nil =>
        exact Or.inl (List.isPrefixOf_iff_prefix.mpr
          ⟨t, by simpa using hst.symm⟩)
      | cons a s' =>
        simp only [List.cons_append, List.cons.injEq] at hst
        exact Or.inr ⟨s', t, hst.2⟩

theorem matchesSearch_iff (q : String) (p : Property) :
    matchesSearch q p = true ↔ specSearchMatch q p := by
  unfold matchesSearch specSearchMatch specCISubstring jsIncludes
  cases p.description <;> cases p.location <;>
    simp [listIncludes_iff, String.toList, or_assoc]

theorem stageSearch_sublist (q : String) (l : List Property) :
    (stageSearch q l).Sublist l := by
  unfold stageSearch
  split
  · exact List.filter_sublist l
  · exact List.Sublist.refl l

theorem stageType_sublist (t : String) (l : List Property) :
    (stageType t l).Sublist l := by
  unfold stageType
  split
  · exact List.filter_sublist l
  · exact List.Sublist.refl l

theorem stageMin_sublist (mp : String) (l : List Property) :
    (stageMin mp l).Sublist l := by
  unfold stageMin
  split
  · split
    · exact List.Sublist.refl l
    · exact List.filter_sublist l
  · exact List.Sublist.refl l

theorem stageMax_sublist (xp : String) (l : List Property) :
    (stageMax xp l).Sublist l := by
  unfold stageMax
  split
  · split
    · exact List.Sublist.refl l
    · exact List.filter_sublist l
  · exact List.Sublist.refl l

theorem stageMin_of_nan (mp : String) (l : List Property)
    (h : parseFloat mp = JSNum.nan) : stageMin mp l = l := by
  unfold stageMin
  rw [h]
  split <;> rfl

theorem stageMax_of_nan (xp : String) (l : List Property)
    (h : parseFloat xp = JSNum.nan) : stageMax xp l = l := by
  unfold stageMax
  rw [h]
  split <;> rfl

theorem stageMin_applied (mp : String) (l : List Property) (m : JSNum)
    (hne : mp ≠ "") (hp : parseFloat mp = m) (hm : m ≠ JSNum.nan) :
    stageMin mp l = l.filter (fun p => jsGe p.price m) := by
  unfold stageMin
  rw [if_pos hne, hp]
  cases m
  · exact absurd rfl hm
  all_goals rfl

theorem stageMax_applied (xp : String) (l : List Property) (m : JSNum)
    (hne : xp ≠ "") (hp : parseFloat xp = m) (hm : m ≠ JSNum.nan) :
    stageMax xp l = l.filter (fun p => jsLe p.price m) := by
  unfold stageMax
  rw [if_pos hne, hp]
  cases m
  · exact absurd rfl hm
  all_goals rfl

theorem stageMax_filter_comm (xp : String) (f : Property → Bool)
    (l : List Property) :
    stageMax xp (l.filter f) = (stageMax xp l).filter f := by
  unfold stageMax
  split
  · split
    · rfl
    · rw [List.filter_filter, List.filter_filter]
      exact List.filter_congr fun p _ => Bool.and_comm _ _
  · rfl

theorem filterMap_map_filter_isSome {α β : Type} (f : α → Option β)
    (rows : List α) :
    (((rows.filter (fun r => (f r).isSome)).map f).filterMap id) =
      ((rows.map f).filterMap id) := by
  induction rows with
  | nil => rfl
  | cons r rs ih =>
    cases h : f r with
    | none => simp [h, ih]
    | some b => simp [h, ih]

/-! ## Claims -/

/-- C1, counterexample: for the query `" ocean"` the trimmed query
`"ocean"` is a case-insensitive substring of the title `"Ocean Villa"`,
so by the claim the property must be kept; the code matches with the
untrimmed query and drops it. -/
theorem search_trim_counterexample :
    jsTrim " ocean" ≠ "" ∧
    specSearchMatch (jsTrim " ocean") villa ∧
    filterProperties [villa] ⟨" ocean", "all", "", ""⟩ = [] :=
  ⟨by decide, Or.inl ⟨[], " villa".toList, by decide⟩, by decide⟩

/-- C1 (amended): when the trimmed query is non-empty (and the other
filters are inactive) the filter keeps exactly those properties where
the **untrimmed** query is a case-insensitive substring of the title,
or of the description if present, or of the location if present; a
property lacking description or location is simply not matched via that
field, and the (total) filter never throws. -/
theorem filter_search_exact (props : List Property) (q : String)
    (hq : jsTrim q ≠ "") :
    filterProperties props ⟨q, "all", "", ""⟩ =
      props.filter (matchesSearch q) ∧
    ∀ p : Property, matchesSearch q p = true ↔ specSearchMatch q p := by
  constructor
  · show stageMax "" (stageMin "" (stageType "all" (stageSearch q props))) = _
    unfold stageMax stageMin stageType stageSearch
    simp [hq]
  · exact fun p => matchesSearch_iff q p

/-- Witness for `filter_search_exact` at a concrete query and list. -/
theorem filter_search_exact_witness :
    filterProperties [condo, villa] ⟨"ocean", "all", "", ""⟩ =
      ([condo, villa] : List Property).filter (matchesSearch "ocean") ∧
    (matchesSearch "ocean" villa = true ↔ specSearchMatch "ocean" villa) :=
  ⟨(filter_search_exact [condo, villa] "ocean" (by decide)).1,
   (filter_search_exact [condo, villa] "ocean" (by decide)).2 villa⟩

/-- C2: for every property list and filter state the filtered result
is a subsequence of the input list — every element occurs in the
input and relative order is preserved, with no re-sorting, duplication
or insertion. -/
theorem filterProperties_sublist (props : List Property) (s : FilterState) :
    (filterProperties props s).Sublist props :=
  ((stageMax_sublist s.maxPrice _).trans
    (stageMin_sublist s.minPrice _)).trans
    ((stageType_sublist s.selectedType _).trans
      (stageSearch_sublist s.searchQuery props))

/-- C3, counterexample: `minPrice = "Infinity"` parses to a non-NaN
but non-finite value, so by the claim it must behave exactly like
`minPrice = ""`; the code applies the `price >= Infinity` filter and
empties the list. -/
theorem price_infinity_counterexample :
    parseFloat "Infinity" = JSNum.posInf ∧
    filterProperties [condo] ⟨"", "all", "Infinity", ""⟩ = [] ∧
    filterProperties [condo] ⟨"", "all", "", ""⟩ = [condo] :=
  ⟨by decide, by decide, by decide⟩

/-- C3 (amended): the min-price (resp. max-price) predicate is applied
iff the corresponding filter-state string is non-empty and parses to a
**non-NaN** number (including ±Infinity); any input parsing to NaN —
e.g. `"abc"` — behaves identically to the empty string, and is never
an error. -/
theorem filter_price_parse (props : List Property)
    (sq st mp xp : String) :
    (parseFloat mp = JSNum.nan →
      filterProperties props ⟨sq, st, mp, xp⟩ =
        filterProperties props ⟨sq, st, "", xp⟩) ∧
    (parseFloat xp = JSNum.nan →
      filterProperties props ⟨sq, st, mp, xp⟩ =
        filterProperties props ⟨sq, st, mp, ""⟩) ∧
    (∀ m, mp ≠ "" → parseFloat mp = m → m ≠ JSNum.nan →
      filterProperties props ⟨sq, st, mp, xp⟩ =
        (filterProperties props ⟨sq, st, "", xp⟩).filter
          (fun p => jsGe p.price m)) ∧
    (∀ m, xp ≠ "" → parseFloat xp = m → m ≠ JSNum.nan →
      filterProperties props ⟨sq, st, mp, xp⟩ =
        (filterProperties props ⟨sq, st, mp, ""⟩).filter
          (fun p => jsLe p.price m)) := by
  refine ⟨?_, ?_, ?_, ?_⟩
  · intro h
    show stageMax xp (stageMin mp _) = stageMax xp (stageMin "" _)
    rw [stageMin_of_nan mp _ h]
    rfl
  · intro h
    show stageMax xp _ = stageMax "" _
    rw [stageMax_of_nan xp _ h]
    rfl
  · intro m hne hp hm
    show stageMax xp (stageMin mp _) =
      (stageMax xp (stageMin "" _)).filter _
    rw [stageMin_applied mp _ m hne hp hm, stageMax_filter_comm]
    rfl
  · intro m hne hp hm
    show stageMax xp _ = (stageMax "" _).filter _
    rw [stageMax_applied xp _ m hne hp hm]
    rfl

/-- Witness for `filter_price_parse`: the unparseable `"abc"` and
`"zz"` behave like `""`, and the parseable `"10"` / `"20"` apply the
corresponding price predicate. -/
theorem filter_price_parse_witness :
    (filterProperties [condo] ⟨"", "all", "abc", ""⟩ =
      filterProperties [condo] ⟨"", "all", "", ""⟩) ∧
    (filterProperties [condo] ⟨"", "all", "", "zz"⟩ =
      filterProperties [condo] ⟨"", "all", "", ""⟩) ∧
    (filterProperties [condo] ⟨"", "all", "10", ""⟩ =
      (filterProperties [condo] ⟨"", "all", "", ""⟩).filter
        (fun p => jsGe p.price (JSNum.finite ⟨10, 0⟩))) ∧
    (filterProperties [condo] ⟨"", "all", "", "20"⟩ =
      (filterProperties [condo] ⟨"", "all", "", ""⟩).filter
        (fun p => jsLe p.price (JSNum.finite ⟨20, 0⟩))) :=
  ⟨(filter_price_parse [condo] "" "all" "abc" "").1 (by decide),
   (filter_price_parse [condo] "" "all" "" "zz").2.1 (by decide),
   (filter_price_parse [condo] "" "all" "10" "").2.2.1
     (JSNum.finite ⟨10, 0⟩) (by decide) (by decide) (by decide),
   (filter_price_parse [condo] "" "all" "" "20").2.2.2
     (JSNum.finite ⟨20, 0⟩) (by decide) (by decide) (by decide)⟩

/-- C4: filtering with the all-inactive state (`searchQuery = ""`,
`selectedType = "all"`, `minPrice = ""`, `maxPrice = ""`) returns the
input list unchanged; in particular the empty list yields the empty
result. -/
theorem filterProperties_inactive_id (props : List Property) :
    filterProperties props ⟨"", "all", "", ""⟩ = props := rfl

/-- C5: if the remote call inside `toggleFavorite` fails — an error
return or a thrown exception — the local favorites state is exactly
what it was before the call, on both the Home screen (id set) and the
Search screen (favorite-property list); in particular a failed remove
of `pid` leaves `pid` present. -/
theorem toggleFavorite_failure_frame (favs : List String)
    (favProps : List Property) (pid : String) (outcome : RemoteOutcome)
    (h : outcome ≠ RemoteOutcome.ok) :
    toggleFavorite favs pid outcome = favs ∧
    searchToggleFavorite favProps pid outcome = favProps ∧
    (pid ∈ favs → pid ∈ toggleFavorite favs pid outcome) := by
  cases outcome <;>
    simp_all [toggleFavorite, searchToggleFavorite]

/-- Witness for `toggleFavorite_failure_frame`: a failed remove of
`"x"` leaves `"x"` favorited. -/
theorem toggleFavorite_failure_frame_witness :
    toggleFavorite ["x"] "x" RemoteOutcome.err = ["x"] ∧
    searchToggleFavorite [condo] "x" RemoteOutcome.err = [condo] ∧
    ("x" ∈ (["x"] : List String) →
      "x" ∈ toggleFavorite ["x"] "x" RemoteOutcome.err) :=
  toggleFavorite_failure_frame ["x"] [condo] "x" RemoteOutcome.err
    (by decide)

/-- C6: toggling a not-yet-favorited id twice (a successful add
followed by a successful remove) restores the favorites list to
exactly its prior state. -/
theorem toggleFavorite_add_remove_roundtrip (favs : List String)
    (pid : String) (h : pid ∉ favs) :
    toggleFavorite (toggleFavorite favs pid RemoteOutcome.ok) pid
      RemoteOutcome.ok = favs := by
  have hc : favs.contains pid = false := by simpa using h
  have h1 : favs.filter (fun i => i != pid) = favs :=
    List.filter_eq_self.mpr fun a ha =>
      bne_iff_ne.mpr fun e => h (e ▸ ha)
  unfold toggleFavorite
  rw [hc]
  simp only [Bool.false_eq_true, if_false]
  rw [if_pos (by simp : ((favs ++ [pid]).contains pid = true)),
    List.filter_append, h1]
  simp

/-- Witness for `toggleFavorite_add_remove_roundtrip` at a concrete
list. -/
theorem toggleFavorite_add_remove_roundtrip_witness :
    toggleFavorite (toggleFavorite ["a"] "b" RemoteOutcome.ok) "b"
      RemoteOutcome.ok = ["a"] :=
  toggleFavorite_add_remove_roundtrip ["a"] "b" (by decide)

/-- C7: every favorites read degrades rather than fails — with no
authenticated user or an erroring remote read, `getUserFavorites` and
`getUserFavoriteProperties` return the empty list and
`isPropertyFavorited` returns `false`; none of them surfaces the
error. -/
theorem favorites_reads_degrade :
    (∀ resp : QueryResp (List FavRow), getUserFavorites none resp = []) ∧
    (∀ (u : String) (resp : QueryResp (List FavRow)),
      resp.error = true → getUserFavorites (some u) resp = []) ∧
    (∀ resp : QueryResp (List FavJoinRow),
      getUserFavoriteProperties none resp = []) ∧
    (∀ (u : String) (resp : QueryResp (List FavJoinRow)),
      resp.error = true → getUserFavoriteProperties (some u) resp = []) ∧
    (∀ resp : QueryResp IdRow, isPropertyFavorited none resp = false) ∧
    (∀ (u : String) (resp : QueryResp IdRow),
      resp.error = true → isPropertyFavorited (some u) resp = false) := by
  refine ⟨fun _ => rfl, ?_, fun _ => rfl, ?_, fun _ => rfl, ?_⟩ <;>
    intro u resp h <;>
    simp [getUserFavorites, getUserFavoriteProperties,
      isPropertyFavorited, h]

/-- Witness for `favorites_reads_degrade` at concrete erroring
responses. -/
theorem favorites_reads_degrade_witness :
    getUserFavorites (some "u") ⟨some [⟨"p"⟩], true⟩ = [] ∧
    getUserFavoriteProperties (some "u") ⟨some [⟨"p", some condo⟩], true⟩ = [] ∧
    isPropertyFavorited (some "u") ⟨some ⟨"i"⟩, true⟩ = false :=
  ⟨favorites_reads_degrade.2.1 "u" ⟨some [⟨"p"⟩], true⟩ rfl,
   favorites_reads_degrade.2.2.2.1 "u" ⟨some [⟨"p", some condo⟩], true⟩ rfl,
   favorites_reads_degrade.2.2.2.2.2 "u" ⟨some ⟨"i"⟩, true⟩ rfl⟩

/-- C8: in a successful favorites-with-properties read, every returned
element is the full property record of some row of the join, and rows
whose joined property is null (dangling favorites) contribute nothing —
dropping them from the response leaves the result unchanged. -/
theorem favorite_properties_dangling (u : String) (rows : List FavJoinRow) :
    (∀ p ∈ getUserFavoriteProperties (some u) ⟨some rows, false⟩,
      ∃ r ∈ rows, r.properties = some p) ∧
    getUserFavoriteProperties (some u) ⟨some rows, false⟩ =
      getUserFavoriteProperties (some u)
        ⟨some (rows.filter (fun r => r.properties.isSome)), false⟩ := by
  constructor
  · intro p hp
    simp only [getUserFavoriteProperties, if_neg (by simp : ¬False),
      Bool.false_eq_true, if_false, List.filterMap_map,
      List.mem_filterMap] at hp
    simpa using hp
  · show ((rows.map _).filterMap id) = _
    rw [← filterMap_map_filter_isSome (fun r => r.properties) rows]
    rfl

/-- Witness for `favorite_properties_dangling`: a response with one
live and one dangling row yields exactly the live property. -/
theorem favorite_properties_dangling_witness :
    (∃ r ∈ [(⟨"2", some villa⟩ : FavJoinRow), ⟨"9", none⟩],
      r.properties = some villa) ∧
    getUserFavoriteProperties (some "u")
        ⟨some [⟨"2", some villa⟩, ⟨"9", none⟩], false⟩ =
      getUserFavoriteProperties (some "u")
        ⟨some (([⟨"2", some villa⟩, ⟨"9", none⟩] :
          List FavJoinRow).filter (fun r => r.properties.isSome)), false⟩ :=
  ⟨(favorite_properties_dangling "u" [⟨"2", some villa⟩, ⟨"9", none⟩]).1
     villa (by decide),
   (favorite_properties_dangling "u" [⟨"2", some villa⟩, ⟨"9", none⟩]).2⟩

/-- C9, counterexample: on a store error both `getAllProperties` and
`getPropertyPhotos` re-throw (`Except.error`), they do not return an
empty result as the claim states. -/
theorem reads_throw_counterexample :
    getAllProperties ⟨some [], true⟩ = Except.error () ∧
    getAllProperties ⟨some [], true⟩ ≠ Except.ok [] ∧
    getPropertyPhotos ⟨some [], true⟩ = Except.error () ∧
    getPropertyPhotos ⟨some [], true⟩ ≠ Except.ok [] :=
  ⟨rfl, by simp [getAllProperties], rfl, by simp [getPropertyPhotos]⟩

/-- C9 (amended): on a store error `getAllProperties` and
`getPropertyPhotos` propagate the failure to the caller (throw); only
when the store reports no error do they return the data, degrading a
null payload to the empty list. -/
theorem reads_error_propagate (rp : QueryResp (List Property))
    (rq : QueryResp (List PropertyPhoto)) :
    (rp.error = true → getAllProperties rp = Except.error ()) ∧
    (rp.error = false → getAllProperties rp = Except.ok (rp.data.getD [])) ∧
    (rq.error = true → getPropertyPhotos rq = Except.error ()) ∧
    (rq.error = false →
      getPropertyPhotos rq = Except.ok (rq.data.getD [])) := by
  refine ⟨fun h => ?_, fun h => ?_, fun h => ?_, fun h => ?_⟩ <;>
    simp [getAllProperties, getPropertyPhotos, h]

/-- Witness for `reads_error_propagate` at concrete responses. -/
theorem reads_error_propagate_witness :
    getAllProperties ⟨none, true⟩ = Except.error () ∧
    getAllProperties ⟨none, false⟩ = Except.ok [] ∧
    getPropertyPhotos ⟨none, true⟩ = Except.error () ∧
    getPropertyPhotos ⟨none, false⟩ = Except.ok [] :=
  ⟨(reads_error_propagate ⟨none, true⟩ ⟨none, true⟩).1 rfl,
   (reads_error_propagate ⟨none, false⟩ ⟨none, false⟩).2.1 rfl,
   (reads_error_propagate ⟨none, true⟩ ⟨none, true⟩).2.2.1 rfl,
   (reads_error_propagate ⟨none, false⟩ ⟨none, false⟩).2.2.2 rfl⟩

/-- C10: a successful toggle of `pid` changes only `pid`'s membership:
every other id keeps its membership, and erasing `pid` from before and
after states gives identical lists (relative order of the remaining
ids is preserved). -/
theorem toggleFavorite_success_frame (favs : List String) (pid : String) :
    (∀ y, y ≠ pid →
      (y ∈ toggleFavorite favs pid RemoteOutcome.ok ↔ y ∈ favs)) ∧
    (toggleFavorite favs pid RemoteOutcome.ok).filter (fun i => i != pid) =
      favs.filter (fun i => i != pid) := by
  unfold toggleFavorite
  by_cases hc : favs.contains pid
  · rw [if_pos hc]
    constructor
    · intro y hy
      simp [List.mem_filter, bne_iff_ne, hy]
    · rw [List.filter_filter]
      exact List.filter_congr fun a _ => by simp
  · rw [if_neg hc]
    constructor
    · intro y hy
      simp [hy]
    · rw [List.filter_append]
      simp

/-- Witness for `toggleFavorite_success_frame`: removing `"b"` from
`["a", "b"]` keeps `"a"`'s membership and the remaining order. -/
theorem toggleFavorite_success_frame_witness :
    ("a" ∈ toggleFavorite ["a", "b"] "b" RemoteOutcome.ok ↔
      "a" ∈ (["a", "b"] : List String)) ∧
    (toggleFavorite ["a", "b"] "b" RemoteOutcome.ok).filter
        (fun i => i != "b") =
      (["a", "b"] : List String).filter (fun i => i != "b") :=
  ⟨(toggleFavorite_success_frame ["a", "b"] "b").1 "a" (by decide),
   (toggleFavorite_success_frame ["a", "b"] "b").2⟩

end StayKo
